import Mathlib

/-!
Shallow embedding of `check_vcenter.py` (Icinga/Nagios plugin checking a
VMware vCenter) and verification of the specification's claims about it.

Severity levels follow the Nagios convention: OK = 0, WARNING = 1,
CRITICAL = 2, UNKNOWN = 3.
-/

namespace CheckVcenter

/-- `set_state(newstate, state)` from the source: the severity combinator.
Mirrors the Python if/elif chain exactly:
  if (newstate == 2) or (state == 2): 2
  elif (newstate == 1) and (state not in [2]): 1
  elif (newstate == 3) and (state not in [1, 2]): 3
  else: 0 -/
def set_state (newstate : Nat) (state : Nat) : Nat :=
  if newstate = 2 ∨ state = 2 then 2
  else if newstate = 1 ∧ ¬ (state = 2) then 1
  else if newstate = 3 ∧ ¬ (state = 1 ∨ state = 2) then 3
  else 0

/-- The four-rule precedence table as worded in spec §4.1 ("evaluated in
order, first match wins"), written independently from the spec text for a
refinement comparison against `set_state`. -/
def combineSpec (new : Nat) (current : Nat) : Nat :=
  if new = 2 ∨ current = 2 then 2
  else if new = 1 ∧ current ≠ 2 then 1
  else if new = 3 ∧ current ≠ 1 ∧ current ≠ 2 then 3
  else 0

/-- C1: for all `new`, `current` in {OK=0, WARNING=1, CRITICAL=2, UNKNOWN=3},
`set_state` returns exactly what the four-rule precedence table of spec §4.1
prescribes: CRITICAL if either argument is CRITICAL; else WARNING if `new` is
WARNING and `current` is not CRITICAL; else UNKNOWN if `new` is UNKNOWN and
`current` is neither WARNING nor CRITICAL; else OK. -/
theorem c1_set_state_matches_spec_table :
    ∀ a b : Fin 4, set_state a.val b.val = combineSpec a.val b.val := by
  decide

/-- C2 counterexample: the claim `set_state(3, 1) = 1` (combining UNKNOWN
into a current WARNING yields WARNING) is false on the code: rule 3 requires
`current not in {1, 2}`, so the chain falls through to the final else and
returns 0. -/
theorem c2_counterexample_unknown_warning : ¬ (set_state 3 1 = 1) := by
  decide

/-- C2 amended: combining UNKNOWN (3) into a current WARNING (1) returns
OK (0), not WARNING: `set_state 3 1 = 0`. -/
theorem c2_amended_unknown_warning_gives_ok : set_state 3 1 = 0 := by
  decide

/-- C3 counterexample: `set_state` is not associative over {0, 1, 2, 3}.
At a = 3 (UNKNOWN), b = 0 (OK), c = 1 (WARNING):
`set_state 3 (set_state 0 1) = set_state 3 0 = 3`, while
`set_state (set_state 3 0) 1 = set_state 3 1 = 0`. -/
theorem c3_counterexample_not_associative :
    ¬ (set_state 3 (set_state 0 1) = set_state (set_state 3 0) 1) := by
  decide

/-- C3 amended: associativity of `set_state` holds on the subrange
{OK=0, WARNING=1, CRITICAL=2} (i.e. as long as UNKNOWN=3 is not involved);
with UNKNOWN admitted it fails, e.g. at (3, 0, 1). -/
theorem c3_amended_associative_without_unknown :
    ∀ a b c : Fin 3,
      set_state a.val (set_state b.val c.val)
        = set_state (set_state a.val b.val) c.val := by
  decide

/-! ## VM classifier (`check_vms`, classification part) -/

/-- A decoded VM inventory record (only the field the classifier reads). -/
structure VmItem where
  power_state : String
deriving Repr, DecidableEq

/-- The cumulative state dict of `check_vms`:
`{'total': 0, 'on': 0, 'off': 0, 'suspended': 0}`. -/
structure VmStates where
  total : Nat
  «on» : Nat
  off : Nat
  suspended : Nat
deriving Repr, DecidableEq

/-- One iteration of the `for element in data` loop of `check_vms`: three
independent `if` tests on `power_state`. -/
def vmStep (states : VmStates) (element : VmItem) : VmStates :=
  let states :=
    if element.power_state = "POWERED_ON" then { states with «on» := states.«on» + 1 } else states
  let states :=
    if element.power_state = "POWERED_OFF" then { states with off := states.off + 1 } else states
  if element.power_state = "SUSPENDED" then
    { states with suspended := states.suspended + 1 }
  else states

/-- The classification part of `check_vms`: counts power states over the
decoded listing and builds the output and perfdata strings; the plugin then
exits via `exit_plugin(0, output, perfdata)`, so the first component is the
return state 0. -/
def check_vms_core (data : List VmItem) : Nat × String × String :=
  let states := data.foldl vmStep { total := data.length, «on» := 0, off := 0, suspended := 0 }
  let perfdata :=
    " | \x27vm_on\x27=" ++ toString states.«on» ++ ";;;0;" ++ toString states.total
    ++ " \x27vm_off\x27=" ++ toString states.off ++ ";;;0;" ++ toString states.total
    ++ " \x27vm_suspended\x27=" ++ toString states.suspended ++ ";;;0;" ++ toString states.total
    ++ " \x27vm_total\x27=" ++ toString states.total ++ ";;;;"
  let output :=
    "Total VMs: " ++ toString states.total ++ ", On: " ++ toString states.«on»
    ++ ", Off: " ++ toString states.off ++ ", Suspended: " ++ toString states.suspended
  (0, output, perfdata)

lemma vmStep_scan (data : List VmItem) : ∀ acc : VmStates,
    data.foldl vmStep acc =
      { total := acc.total,
        «on» := acc.«on» + data.countP (fun e => e.power_state == "POWERED_ON"),
        off := acc.off + data.countP (fun e => e.power_state == "POWERED_OFF"),
        suspended := acc.suspended + data.countP (fun e => e.power_state == "SUSPENDED") } := by
  induction data with
  | nil => intro acc; simp
  | cons e rest ih =>
    intro acc
    rw [List.foldl_cons, ih]
    simp only [List.countP_cons, vmStep]
    by_cases h1 : e.power_state = "POWERED_ON" <;>
      by_cases h2 : e.power_state = "POWERED_OFF" <;>
        by_cases h3 : e.power_state = "SUSPENDED" <;>
          first
            | (exact absurd (h1 ▸ h2) (by decide))
            | (exact absurd (h1 ▸ h3) (by decide))
            | (exact absurd (h2 ▸ h3) (by decide))
            | (simp [h1, h2, h3, VmStates.mk.injEq] <;> omega)

/-- C9: for every decoded listing, the VM classifier returns severity OK (0);
its counters are the listing length and the number of items in each of the
three known power states; its summary is exactly
`Total VMs: t, On: n, Off: f, Suspended: s`; and its perfdata is exactly the
four space-separated quoted-label tokens, `vm_on`/`vm_off`/`vm_suspended`
bounded `;;;0;total` and `vm_total` with empty min and max fields (`;;;;`). -/
theorem c9_check_vms_core_correct (data : List VmItem) :
    check_vms_core data =
      (0,
       "Total VMs: " ++ toString data.length
         ++ ", On: " ++ toString (data.countP (fun e => e.power_state == "POWERED_ON"))
         ++ ", Off: " ++ toString (data.countP (fun e => e.power_state == "POWERED_OFF"))
         ++ ", Suspended: " ++ toString (data.countP (fun e => e.power_state == "SUSPENDED")),
       " | \x27vm_on\x27=" ++ toString (data.countP (fun e => e.power_state == "POWERED_ON"))
         ++ ";;;0;" ++ toString data.length
         ++ " \x27vm_off\x27=" ++ toString (data.countP (fun e => e.power_state == "POWERED_OFF"))
         ++ ";;;0;" ++ toString data.length
         ++ " \x27vm_suspended\x27="
         ++ toString (data.countP (fun e => e.power_state == "SUSPENDED"))
         ++ ";;;0;" ++ toString data.length
         ++ " \x27vm_total\x27=" ++ toString data.length ++ ";;;;") := by
  unfold check_vms_core
  rw [vmStep_scan]
  simp

/-! ## Host classifier (`check_hosts`, classification part) -/

/-- A decoded host inventory record (the fields the classifier reads). -/
structure HostItem where
  name : String
  power_state : String
  connection_state : String
deriving Repr, DecidableEq

/-- The two summary dicts of `check_hosts` merged with the running return
state into one accumulator (the count fields and name-list fields of
`power_state` and `connection_state`, plus `state`). -/
structure HostAcc where
  power_on : Nat
  power_off : Nat
  power_standby : Nat
  hosts_off_list : List String
  hosts_standby_list : List String
  conn_connected : Nat
  conn_disconnected : Nat
  conn_notresponding : Nat
  hosts_discon_list : List String
  hosts_notresp_list : List String
  state : Nat
deriving Repr, DecidableEq

/-- The `power_state` part of one loop iteration of `check_hosts`
(the if/elif chain reached when the `NOT_RESPONDING` branch did not
`continue`). -/
def hostPowerStep (acc : HostAcc) (element : HostItem) : HostAcc :=
  if element.power_state = "POWERED_ON" then
    { acc with power_on := acc.power_on + 1 }
  else if element.power_state = "POWERED_OFF" then
    { acc with power_off := acc.power_off + 1,
               hosts_off_list := acc.hosts_off_list ++ [element.name] }
  else if element.power_state = "STANDBY" then
    { acc with power_standby := acc.power_standby + 1,
               hosts_standby_list := acc.hosts_standby_list ++ [element.name] }
  else acc

/-- One full iteration of the `for element in data` loop of `check_hosts`:
the `connection_state` if/elif chain, whose `NOT_RESPONDING` branch raises
the state via `set_state(1, state)` and `continue`s (skipping the
`power_state` evaluation), followed — in all other cases — by the
`power_state` chain. -/
def hostStep (acc : HostAcc) (element : HostItem) : HostAcc :=
  if element.connection_state = "CONNECTED" then
    hostPowerStep { acc with conn_connected := acc.conn_connected + 1 } element
  else if element.connection_state = "DISCONNECTED" then
    hostPowerStep
      { acc with conn_disconnected := acc.conn_disconnected + 1,
                 hosts_discon_list := acc.hosts_discon_list ++ [element.name] } element
  else if element.connection_state = "NOT_RESPONDING" then
    { acc with conn_notresponding := acc.conn_notresponding + 1,
               hosts_notresp_list := acc.hosts_notresp_list ++ [element.name],
               state := set_state 1 acc.state }
  else hostPowerStep acc element

/-- The zero-initialised accumulator of `check_hosts`. -/
def initHostAcc : HostAcc :=
  { power_on := 0, power_off := 0, power_standby := 0,
    hosts_off_list := [], hosts_standby_list := [],
    conn_connected := 0, conn_disconnected := 0, conn_notresponding := 0,
    hosts_discon_list := [], hosts_notresp_list := [],
    state := 0 }

/-- The whole counting loop of `check_hosts` over the decoded listing. -/
def hostScan (data : List HostItem) : HostAcc := data.foldl hostStep initHostAcc

/-- Whether a host record's `connection_state` is `NOT_RESPONDING`. -/
def isNotResponding (e : HostItem) : Bool := e.connection_state == "NOT_RESPONDING"

lemma hostPowerStep_fields (acc : HostAcc) (e : HostItem) :
    (hostPowerStep acc e).conn_notresponding = acc.conn_notresponding
    ∧ (hostPowerStep acc e).hosts_notresp_list = acc.hosts_notresp_list
    ∧ (hostPowerStep acc e).state = acc.state
    ∧ (hostPowerStep acc e).power_on
        = acc.power_on + (if e.power_state = "POWERED_ON" then 1 else 0)
    ∧ (hostPowerStep acc e).power_off
        = acc.power_off + (if e.power_state = "POWERED_OFF" then 1 else 0)
    ∧ (hostPowerStep acc e).power_standby
        = acc.power_standby + (if e.power_state = "STANDBY" then 1 else 0) := by
  unfold hostPowerStep
  split_ifs with h1 h2 h3 <;> simp_all

lemma hostStep_fields (acc : HostAcc) (e : HostItem) :
    (hostStep acc e).conn_notresponding
        = acc.conn_notresponding + (if isNotResponding e then 1 else 0)
    ∧ (hostStep acc e).hosts_notresp_list
        = acc.hosts_notresp_list ++ (if isNotResponding e then [e.name] else [])
    ∧ (hostStep acc e).state
        = (if isNotResponding e then set_state 1 acc.state else acc.state)
    ∧ (hostStep acc e).power_on
        = acc.power_on
          + (if ¬ isNotResponding e ∧ e.power_state = "POWERED_ON" then 1 else 0)
    ∧ (hostStep acc e).power_off
        = acc.power_off
          + (if ¬ isNotResponding e ∧ e.power_state = "POWERED_OFF" then 1 else 0)
    ∧ (hostStep acc e).power_standby
        = acc.power_standby
          + (if ¬ isNotResponding e ∧ e.power_state = "STANDBY" then 1 else 0) := by
  unfold hostStep isNotResponding
  split_ifs with h1 h2 h3 <;> simp_all [hostPowerStep_fields, beq_iff_eq]

lemma set_state_one_of_ne_two (s : Nat) (h : ¬ s = 2) : set_state 1 s = 1 := by
  simp [set_state, h]

lemma hostStep_scan (data : List HostItem) : ∀ acc : HostAcc, ¬ acc.state = 2 →
    (data.foldl hostStep acc).conn_notresponding
        = acc.conn_notresponding + data.countP isNotResponding
    ∧ (data.foldl hostStep acc).hosts_notresp_list
        = acc.hosts_notresp_list ++ (data.filter isNotResponding).map HostItem.name
    ∧ (data.foldl hostStep acc).power_on
        = acc.power_on
          + data.countP (fun e => !(isNotResponding e) && (e.power_state == "POWERED_ON"))
    ∧ (data.foldl hostStep acc).power_off
        = acc.power_off
          + data.countP (fun e => !(isNotResponding e) && (e.power_state == "POWERED_OFF"))
    ∧ (data.foldl hostStep acc).power_standby
        = acc.power_standby
          + data.countP (fun e => !(isNotResponding e) && (e.power_state == "STANDBY"))
    ∧ (data.foldl hostStep acc).state
        = (if data.countP isNotResponding = 0 then acc.state else 1) := by
  induction data with
  | nil => intro acc h; simp
  | cons e rest ih =>
    intro acc h
    rw [List.foldl_cons]
    have hstep := hostStep_fields acc e
    have hne : ¬ (hostStep acc e).state = 2 := by
      rcases hstep with ⟨-, -, hst, -⟩
      rw [hst]
      by_cases hnr : isNotResponding e <;> simp [hnr, set_state_one_of_ne_two acc.state h, h]
    have hrest := ih (hostStep acc e) hne
    rcases hstep with ⟨h1, h2, h3, h4, h5, h6⟩
    rcases hrest with ⟨g1, g2, g3, g4, g5, g6⟩
    refine ⟨?_, ?_, ?_, ?_, ?_, ?_⟩
    · rw [g1, h1, List.countP_cons]
      by_cases hnr : isNotResponding e <;> simp [hnr] <;> omega
    · rw [g2, h2, List.filter_cons]
      by_cases hnr : isNotResponding e <;> simp [hnr]
    · rw [g3, h4, List.countP_cons]
      by_cases hnr : isNotResponding e <;>
        by_cases hp : e.power_state = "POWERED_ON" <;> simp [hnr, hp] <;> omega
    · rw [g4, h5, List.countP_cons]
      by_cases hnr : isNotResponding e <;>
        by_cases hp : e.power_state = "POWERED_OFF" <;> simp [hnr, hp] <;> omega
    · rw [g5, h6, List.countP_cons]
      by_cases hnr : isNotResponding e <;>
        by_cases hp : e.power_state = "STANDBY" <;> simp [hnr, hp] <;> omega
    · rw [g6, h3, List.countP_cons]
      by_cases hnr : isNotResponding e <;>
        simp [hnr, set_state_one_of_ne_two acc.state h]

/-- C4: over any decoded host listing, `check_hosts`'s loop counts each
`NOT_RESPONDING` item in `conn_notresponding` and appends its name to the
not-responding list, raises the running state to WARNING (1) exactly when at
least one such item exists, and excludes those items from every power-state
counter; all other items are counted by `power_state` alone, and when no
item is `NOT_RESPONDING` the state stays OK (0) regardless of power states. -/
theorem c4_check_hosts_not_responding (data : List HostItem) :
    (hostScan data).conn_notresponding = data.countP isNotResponding
    ∧ (hostScan data).hosts_notresp_list
        = (data.filter isNotResponding).map HostItem.name
    ∧ (hostScan data).power_on
        = data.countP (fun e => !(isNotResponding e) && (e.power_state == "POWERED_ON"))
    ∧ (hostScan data).power_off
        = data.countP (fun e => !(isNotResponding e) && (e.power_state == "POWERED_OFF"))
    ∧ (hostScan data).power_standby
        = data.countP (fun e => !(isNotResponding e) && (e.power_state == "STANDBY"))
    ∧ (hostScan data).state
        = (if data.countP isNotResponding = 0 then 0 else 1) := by
  have h := hostStep_scan data initHostAcc (by simp [initHostAcc])
  simpa [hostScan, initHostAcc] using h

/-- The `f' ({", ".join(lst)})'` strings of `check_hosts`, produced only when
the corresponding list is non-empty (otherwise the empty string). -/
def joinedHostList (l : List String) : String :=
  if l.length > 0 then " (" ++ String.intercalate ", " l ++ ")" else ""

/-- The classification part of `check_hosts`: the counting loop plus the
output and perfdata string construction; the final `exit_plugin(state,
output, perfdata)` receives exactly this triple. -/
def check_hosts_core (data : List HostItem) : Nat × String × String :=
  let acc := hostScan data
  let total := data.length
  let output :=
    " " ++ toString total ++ " Hosts total - Power On: " ++ toString acc.power_on
    ++ ", Off: " ++ toString acc.power_off ++ joinedHostList acc.hosts_off_list
    ++ ", Standby: " ++ toString acc.power_standby ++ joinedHostList acc.hosts_standby_list
    ++ " - Connected: " ++ toString acc.conn_connected
    ++ ", Disconnected: " ++ toString acc.conn_disconnected
    ++ joinedHostList acc.hosts_discon_list
    ++ ", Not responding: " ++ toString acc.conn_notresponding
    ++ joinedHostList acc.hosts_notresp_list
  let perfdata :=
    " | \x27power_on\x27=" ++ toString acc.power_on ++ ";;;0;" ++ toString total
    ++ " \x27power_off\x27=" ++ toString acc.power_off ++ ";;;0;" ++ toString total
    ++ " \x27power_standby\x27=" ++ toString acc.power_standby ++ ";;;0;" ++ toString total
    ++ " \x27conn_connected\x27=" ++ toString acc.conn_connected ++ ";;;0;" ++ toString total
    ++ " \x27conn_disconnected\x27=" ++ toString acc.conn_disconnected
    ++ ";;;0;" ++ toString total
    ++ " \x27conn_notresp\x27=" ++ toString acc.conn_notresponding ++ ";;;0;" ++ toString total
  (acc.state, output, perfdata)

/-! ## Datastore classifier (`check_datastores`, classification part)

Numeric model: Python's float division and `round(x, 2)` are modelled over
`ℚ` (exact rational arithmetic), with `round` as round-half-to-even
(banker's rounding), which is the documented behaviour of Python 3's
built-in `round`. A division whose denominator is zero raises
`ZeroDivisionError` in Python; the embedding makes that case an explicit
`pyCrash` error value, since no handler in the source catches it. -/

/-- An uncaught Python exception escaping the plugin code (the process then
dies with a traceback instead of a plugin-convention exit). -/
inductive PyCrash where
  | zeroDivisionError
  | typeError
deriving Repr, DecidableEq

/-- Round-half-to-even to the nearest integer, Python 3's `round` tie rule. -/
def roundHalfEven (q : ℚ) : ℤ :=
  let f : ℤ := Int.floor q
  let frac : ℚ := q - (f : ℚ)
  if frac < 1/2 then f
  else if 1/2 < frac then f + 1
  else if f % 2 = 0 then f else f + 1

/-- Python's `round(q, 2)`: round to two decimal places. -/
def pyRound2 (q : ℚ) : ℚ := (roundHalfEven (q * 100) : ℚ) / 100

/-- `used_pct` of one datastore record, as computed in `check_datastores`:
`round(((capacity - free_space) / capacity) * 100, 2)`. Meaningful only for
`capacity ≠ 0` (the zero case raises in Python and is handled separately in
`check_datastores`). -/
def usedPct (capacity free_space : Int) : ℚ :=
  pyRound2 ((((capacity : ℚ) - (free_space : ℚ)) / (capacity : ℚ)) * 100)

/-- A decoded datastore inventory record (the fields the classifier reads). -/
structure DatastoreItem where
  name : String
  capacity : Int
  free_space : Int
deriving Repr, DecidableEq

/-- Renders a rational whose denominator divides 100 the way Python prints
the corresponding float: at least one fractional digit (`97.0`), trailing
zero of the hundredths digit dropped (`96.9`), two digits otherwise
(`96.85`). Only used on outputs of `pyRound2`. -/
def formatPct (q : ℚ) : String :=
  let n : ℤ := Int.floor (q * 100)
  let ipart : ℤ := n / 100
  let rem : ℤ := n % 100
  if rem = 0 then toString ipart ++ ".0"
  else if rem % 10 = 0 then toString ipart ++ "." ++ toString (rem / 10)
  else if rem < 10 then toString ipart ++ ".0" ++ toString rem
  else toString ipart ++ "." ++ toString rem

/-- Whether one datastore record breaches the 97 % usage threshold
(`used_pct >= 97`). -/
def dsBreach (e : DatastoreItem) : Bool := decide (97 ≤ usedPct e.capacity e.free_space)

/-- The `for element in data` loop of `check_datastores`, threading the
return state, output string and perfdata string; a zero `capacity` raises
`ZeroDivisionError` (uncaught in the source). -/
def dsLoop : List DatastoreItem → Nat → String → String →
    Except PyCrash (Nat × String × String)
  | [], state, output, perfdata => .ok (state, output, perfdata)
  | e :: rest, state, output, perfdata =>
    if e.capacity = 0 then .error .zeroDivisionError
    else
      dsLoop rest
        (if 97 ≤ usedPct e.capacity e.free_space then set_state 1 state else state)
        (if 97 ≤ usedPct e.capacity e.free_space then
           output ++ ", " ++ e.name ++ ": " ++ formatPct (usedPct e.capacity e.free_space) ++ "%"
         else output)
        (perfdata ++ "\x27" ++ e.name ++ "\x27="
          ++ formatPct (usedPct e.capacity e.free_space) ++ "%;;;0;100 ")

/-- The classification part of `check_datastores`: initial state 0, output
`"Total datastores: N"`, perfdata `" | "`, then the per-datastore loop; the
final `exit_plugin(state, output, perfdata)` receives the `.ok` triple. -/
def check_datastores_core (data : List DatastoreItem) :
    Except PyCrash (Nat × String × String) :=
  dsLoop data 0 ("Total datastores: " ++ toString data.length) " | "

/-- The text appended to the output for a breaching datastore (empty for a
non-breaching one). -/
def dsBreachText (e : DatastoreItem) : String :=
  if dsBreach e then ", " ++ e.name ++ ": " ++ formatPct (usedPct e.capacity e.free_space) ++ "%"
  else ""

/-- The perfdata token (with its trailing separator space) appended for
every datastore. -/
def dsPerfToken (e : DatastoreItem) : String :=
  "\x27" ++ e.name ++ "\x27=" ++ formatPct (usedPct e.capacity e.free_space) ++ "%;;;0;100 "

/-- Concatenation of a list of strings (in order). -/
def concatStrings : List String → String
  | [] => ""
  | s :: rest => s ++ concatStrings rest

lemma dsLoop_scan (data : List DatastoreItem) :
    ∀ state output perfdata, (∀ e ∈ data, ¬ e.capacity = 0) → ¬ state = 2 →
    dsLoop data state output perfdata =
      .ok ((if data.countP dsBreach = 0 then state else 1),
           output ++ concatStrings (data.map dsBreachText),
           perfdata ++ concatStrings (data.map dsPerfToken)) := by
  induction data with
  | nil => intro state output perfdata hcap hs; simp [dsLoop, concatStrings]
  | cons e rest ih =>
    intro state output perfdata hcap hs
    have hce : ¬ e.capacity = 0 := hcap e (List.mem_cons_self e rest)
    have hcr : ∀ x ∈ rest, ¬ x.capacity = 0 := fun x hx => hcap x (List.mem_cons_of_mem e hx)
    rw [dsLoop, if_neg hce]
    by_cases hb : 97 ≤ usedPct e.capacity e.free_space
    · have hs1 : ¬ set_state 1 state = 2 := by
        rw [set_state_one_of_ne_two state hs]; decide
      rw [if_pos hb, if_pos hb, ih _ _ _ hcr hs1]
      have hbb : dsBreach e = true := by simp [dsBreach, hb]
      rw [set_state_one_of_ne_two state hs]
      simp [List.countP_cons, hbb, dsBreachText, dsPerfToken, concatStrings, hb,
            String.append_assoc]
    · rw [if_neg hb, if_neg hb, ih _ _ _ hcr hs]
      have hbb : dsBreach e = false := by simp [dsBreach, hb]
      simp [List.countP_cons, hbb, dsBreachText, dsPerfToken, concatStrings, hb,
            String.append_assoc]

/-- C5: for a decoded listing whose items all have positive capacity, the
datastore classifier succeeds; its state is WARNING (1) exactly when some
item's `used_pct = round(((capacity - free_space) / capacity) * 100, 2)` is
at least 97 and OK (0) otherwise; the output starts with
`Total datastores: N` followed by one `", name: pct%"` fragment per
breaching item; the perfdata is `" | "` followed by one `'name'=pct%;;;0;100`
token per item, breaching or not; and in particular
`capacity=1000, free_space=30` gives `used_pct = 97` while
`capacity=1000, free_space=31` gives `used_pct = 96.9`. -/
theorem c5_check_datastores_core (data : List DatastoreItem)
    (hcap : ∀ e ∈ data, 0 < e.capacity) :
    check_datastores_core data =
      .ok ((if data.countP dsBreach = 0 then 0 else 1),
           "Total datastores: " ++ toString data.length
             ++ concatStrings (data.map dsBreachText),
           " | " ++ concatStrings (data.map dsPerfToken))
    ∧ usedPct 1000 30 = 97
    ∧ usedPct 1000 31 = 969/10 := by
  refine ⟨?_, ?_, ?_⟩
  · have h := dsLoop_scan data 0 ("Total datastores: " ++ toString data.length) " | "
      (fun e he => by have := hcap e he; omega) (by decide)
    simpa [check_datastores_core] using h
  · norm_num [usedPct, pyRound2, roundHalfEven]
  · norm_num [usedPct, pyRound2, roundHalfEven]

/-- C5 witness: on the concrete two-element listing of the spec's fixtures
(`ds1` at 1000/30, `ds2` at 1000/31) the classifier returns WARNING with
`ds1: 97.0%` named in the output and both datastores in the perfdata. -/
theorem c5_check_datastores_core_witness :
    check_datastores_core [{ name := "ds1", capacity := 1000, free_space := 30 },
                           { name := "ds2", capacity := 1000, free_space := 31 }] =
      .ok (1, "Total datastores: 2, ds1: 97.0%",
           " | \x27ds1\x27=97.0%;;;0;100 \x27ds2\x27=96.9%;;;0;100 ") := by
  have h := c5_check_datastores_core
    [{ name := "ds1", capacity := 1000, free_space := 30 },
     { name := "ds2", capacity := 1000, free_space := 31 }]
    (by intro e he; fin_cases he <;> decide)
  rw [h.1]
  norm_num [dsBreach, usedPct, pyRound2, roundHalfEven, dsBreachText, dsPerfToken,
            concatStrings, formatPct]
  exact ⟨rfl, rfl⟩

/-- C6: a datastore item with `capacity = 0` makes `check_datastores` raise
an uncaught `ZeroDivisionError` (the source computes
`used_bytes / element['capacity']` with no guard and no handler), rather
than failing through the plugin's fatal-error channel with a `DataError`. -/
theorem c6_zero_capacity_division_crash :
    check_datastores_core [{ name := "ds", capacity := 0, free_space := 0 }]
      = .error PyCrash.zeroDivisionError := rfl

/-! ## API session, HTTP transport and `main`

The HTTP transport (`requests.request` plus the network) is the external
collaborator: it is modelled as an oracle from a request to either a
connection-level failure (the exception text of the
`ConnectionError`/`ConnectTimeout`/... handlers) or a response. Every
session operation reports the requests it issued, so theorems can speak
about which HTTP calls a run performs and in what circumstances. -/

/-- The parsed command-line arguments (the fields of `get_args`). -/
structure Args where
  mode : String
  user : String
  pw : String
  baseurl : String
  timeout : Nat
  cacert : String
  debug : Bool
deriving Repr, DecidableEq

/-- One HTTP request as issued through `requests.request`. -/
structure TransportRequest where
  method : String
  url : String
  headers : List (String × String)
  auth : Option (String × String)
deriving Repr, DecidableEq

/-- The decoded body a successful `req.json()` call yields, by inventory
kind (`raw` stands for any other JSON shape). -/
inductive Payload where
  | vms (items : List VmItem)
  | hosts (items : List HostItem)
  | datastores (items : List DatastoreItem)
  | raw (text : String)
deriving Repr, DecidableEq

/-- An HTTP response: status code, body text, decoded JSON body. -/
structure HttpResponse where
  status_code : Nat
  text : String
  json : Payload
deriving Repr, DecidableEq

/-- The transport oracle: either raises a connection-level failure carrying
the cause text, or delivers a response. -/
def Transport : Type := TransportRequest → Except String HttpResponse

/-- The triple `(returncode, output, perfdata)` handed to `exit_plugin`. -/
abbrev ExitCall := Nat × String × String

/-- `exit_plugin` from the source: maps the return code to the printed line
and process exit code. Return code 3 prints `output` without the perfdata;
0, 1 and 2 print `output` followed by `perfdata`; any other code falls
through all branches (the Python function just returns). -/
def exit_plugin (returncode : Nat) (output perfdata : String) : Option (Nat × String) :=
  if returncode = 3 then some (3, "UNKNOWN - " ++ output)
  else if returncode = 2 then some (2, "CRITICAL - " ++ output ++ perfdata)
  else if returncode = 1 then some (1, "WARNING - " ++ output ++ perfdata)
  else if returncode = 0 then some (0, "OK - " ++ output ++ perfdata)
  else none

/-- `str.strip('"')` from the session constructor: removes leading and
trailing double-quote characters. -/
def stripQuoteChars (s : String) : String :=
  let l := s.toList.dropWhile (fun c => c = '"')
  String.mk ((l.reverse.dropWhile (fun c => c = '"')).reverse)

/-- The `VCenterAPISession` object state after a successful constructor
run (the private `__authtoken` set exactly once). -/
structure VCenterAPISession where
  baseurl : String
  cacert : String
  timeout : Nat
  debug : Bool
  authtoken : String
deriving Repr, DecidableEq

/-- The authentication request of `VCenterAPISession.__init__`:
`POST {baseurl}/api/session` with basic auth and form-encoded content type. -/
def authRequest (args : Args) : TransportRequest :=
  { method := "POST", url := args.baseurl ++ "/api/session",
    headers := [("Content-Type", "application/x-www-form-urlencoded")],
    auth := some (args.user, args.pw) }

/-- `VCenterAPISession.__init__`: issues the authentication request; a
transport failure exits with `Connection error: {err}`; a status outside
{200, 201} exits with the auth-error message; otherwise the unquoted body
becomes the session token. Also reports the requests issued. -/
def sessionInit (transport : Transport) (args : Args) :
    Except ExitCall VCenterAPISession × List TransportRequest :=
  match transport (authRequest args) with
  | .error err => (.error (3, "Connection error: " ++ err, ""), [authRequest args])
  | .ok req =>
    if req.status_code = 200 ∨ req.status_code = 201 then
      (.ok { baseurl := args.baseurl, cacert := args.cacert, timeout := args.timeout,
             debug := args.debug, authtoken := stripQuoteChars req.text },
       [authRequest args])
    else
      (.error (3, "Error during API auth request: HTTP status "
                ++ toString req.status_code ++ " : " ++ req.text, ""),
       [authRequest args])

/-- The teardown request of `VCenterAPISession.destroy`:
`DELETE {baseurl}/api/session` with the session-token header. -/
def destroyRequest (sess : VCenterAPISession) : TransportRequest :=
  { method := "DELETE", url := sess.baseurl ++ "/api/session",
    headers := [("vmware-api-session-id", sess.authtoken),
                ("Content-Type", "application/x-www-form-urlencoded")],
    auth := none }

/-- `VCenterAPISession.destroy`: transport failure exits with the
connection-error message; a status outside {200, 201, 204} exits with the
token-invalidation message; otherwise the session is gone. -/
def sessionDestroy (transport : Transport) (sess : VCenterAPISession) :
    Except ExitCall Unit × List TransportRequest :=
  match transport (destroyRequest sess) with
  | .error err => (.error (3, "Connection error: " ++ err, ""), [destroyRequest sess])
  | .ok req =>
    if req.status_code = 200 ∨ req.status_code = 201 ∨ req.status_code = 204 then
      (.ok (), [destroyRequest sess])
    else
      (.error (3, "Error during token invalidation request: HTTP status "
                ++ toString req.status_code ++ " : " ++ req.text, ""),
       [destroyRequest sess])

/-- The default request headers of `query_api_endpoint` when the caller
supplies none. -/
def defaultHeaders : List (String × String) :=
  [("Content-Type", "application/x-www-form-urlencoded")]

/-- The request built by `query_api_endpoint`: caller headers (or the
default) with the session-token header merged in. -/
def queryRequest (sess : VCenterAPISession) (method endpoint : String)
    (headers : Option (List (String × String))) : TransportRequest :=
  { method := method, url := sess.baseurl ++ endpoint,
    headers := headers.getD defaultHeaders ++ [("vmware-api-session-id", sess.authtoken)],
    auth := none }

/-- The HTTP status codes `query_api_endpoint` treats as fatal. -/
def fatalStatuses : List Nat := [400, 401, 403, 500, 503]

/-- `query_api_endpoint`: transport failure exits with the connection-error
message; a status in `fatalStatuses` exits with an API-error message whose
text hard-codes the endpoint `/api/vcenter/vm`; every other status returns
the decoded JSON body unchecked. -/
def query_api_endpoint (transport : Transport) (sess : VCenterAPISession)
    (method endpoint : String) (headers : Option (List (String × String))) :
    Except ExitCall Payload × List TransportRequest :=
  match transport (queryRequest sess method endpoint headers) with
  | .error err =>
    (.error (3, "Connection error: " ++ err, ""), [queryRequest sess method endpoint headers])
  | .ok req =>
    if req.status_code ∈ fatalStatuses then
      (.error (3, "Error during API request to /api/vcenter/vm : HTTP status "
                ++ toString req.status_code ++ " : " ++ req.text, ""),
       [queryRequest sess method endpoint headers])
    else (.ok req.json, [queryRequest sess method endpoint headers])

/-- How a check routine ends: an `exit_plugin` call or an uncaught Python
exception. -/
inductive Fatal where
  | exits (call : ExitCall)
  | crash (e : PyCrash)
deriving Repr, DecidableEq

/-- `check_vms`: fetch `/api/vcenter/vm`, tear the session down, then count
and exit with `(0, output, perfdata)`. A payload that is not a list of VM
records makes the Python loop raise (modelled as a `typeError` crash). -/
def check_vms (transport : Transport) (sess : VCenterAPISession) :
    Except Fatal (Nat × String × String) × List TransportRequest :=
  match query_api_endpoint transport sess "GET" "/api/vcenter/vm" none with
  | (.error call, tr) => (.error (.exits call), tr)
  | (.ok payload, tr) =>
    match sessionDestroy transport sess with
    | (.error call, tr2) => (.error (.exits call), tr ++ tr2)
    | (.ok _, tr2) =>
      match payload with
      | .vms data => (.ok (check_vms_core data), tr ++ tr2)
      | _ => (.error (.crash .typeError), tr ++ tr2)

/-- `check_hosts`: fetch `/api/vcenter/host`, tear the session down, then
classify and exit with the accumulated `(state, output, perfdata)`. -/
def check_hosts (transport : Transport) (sess : VCenterAPISession) :
    Except Fatal (Nat × String × String) × List TransportRequest :=
  match query_api_endpoint transport sess "GET" "/api/vcenter/host" none with
  | (.error call, tr) => (.error (.exits call), tr)
  | (.ok payload, tr) =>
    match sessionDestroy transport sess with
    | (.error call, tr2) => (.error (.exits call), tr ++ tr2)
    | (.ok _, tr2) =>
      match payload with
      | .hosts data => (.ok (check_hosts_core data), tr ++ tr2)
      | _ => (.error (.crash .typeError), tr ++ tr2)

/-- `check_datastores`: fetch `/api/vcenter/datastore`, tear the session
down, then run the usage loop (which can raise `ZeroDivisionError`). -/
def check_datastores (transport : Transport) (sess : VCenterAPISession) :
    Except Fatal (Nat × String × String) × List TransportRequest :=
  match query_api_endpoint transport sess "GET" "/api/vcenter/datastore" none with
  | (.error call, tr) => (.error (.exits call), tr)
  | (.ok payload, tr) =>
    match sessionDestroy transport sess with
    | (.error call, tr2) => (.error (.exits call), tr ++ tr2)
    | (.ok _, tr2) =>
      match payload with
      | .datastores data =>
        match check_datastores_core data with
        | .ok res => (.ok res, tr ++ tr2)
        | .error e => (.error (.crash e), tr ++ tr2)
      | _ => (.error (.crash .typeError), tr ++ tr2)

/-- How one process run ends: a plugin-convention exit (code plus stdout
line), an uncaught exception, or falling off the end of `main` without an
`exit_plugin` call. -/
inductive RunOutcome where
  | exited (code : Nat) (line : String)
  | crashed (e : PyCrash)
  | noExit
deriving Repr, DecidableEq

/-- Applies `exit_plugin` to the triple a check routine hands it. -/
def outcomeOfExit (call : ExitCall) : RunOutcome :=
  match exit_plugin call.1 call.2.1 call.2.2 with
  | some (code, line) => .exited code line
  | none => .noExit

/-- Combines the session-construction trace with a check routine's result
and trace into the run's outcome and full request trace. -/
def finishRun (tr : List TransportRequest) :
    Except Fatal (Nat × String × String) × List TransportRequest →
      RunOutcome × List TransportRequest
  | (.error (.exits call), tr2) => (outcomeOfExit call, tr ++ tr2)
  | (.error (.crash e), tr2) => (.crashed e, tr ++ tr2)
  | (.ok res, tr2) => (outcomeOfExit res, tr ++ tr2)

/-- `main`: construct the session (authentication exchange), then dispatch
on `--mode`. A failure inside the constructor exits the process before any
mode dispatch. An unknown mode falls through without exiting (unreachable
behind argparse's `choices`). -/
def main (transport : Transport) (args : Args) : RunOutcome × List TransportRequest :=
  match sessionInit transport args with
  | (.error call, tr) => (outcomeOfExit call, tr)
  | (.ok sess, tr) =>
    if args.mode = "vms" then finishRun tr (check_vms transport sess)
    else if args.mode = "hosts" then finishRun tr (check_hosts transport sess)
    else if args.mode = "datastores" then finishRun tr (check_datastores transport sess)
    else (.noExit, tr)

/-- C7: when the transport delivers a response, `query_api_endpoint` fails
fatally — an `exit_plugin(3, ...)` call carrying the status code and body —
exactly when the status code is one of {400, 401, 403, 500, 503}; every
other status code makes it return the decoded JSON body to the caller with
no further validation. -/
theorem c7_query_api_endpoint_fatal_iff (sess : VCenterAPISession)
    (resp : HttpResponse) (method endpoint : String) :
    ((∃ call, (query_api_endpoint (fun _ => .ok resp) sess method endpoint none).1
        = .error call)
      ↔ resp.status_code ∈ fatalStatuses)
    ∧ (resp.status_code ∈ fatalStatuses →
        (query_api_endpoint (fun _ => .ok resp) sess method endpoint none).1
          = .error (3, "Error during API request to /api/vcenter/vm : HTTP status "
              ++ toString resp.status_code ++ " : " ++ resp.text, ""))
    ∧ (resp.status_code ∉ fatalStatuses →
        (query_api_endpoint (fun _ => .ok resp) sess method endpoint none).1
          = .ok resp.json) := by
  unfold query_api_endpoint
  by_cases h : resp.status_code ∈ fatalStatuses <;> simp [h]

/-- C7 witness: a 503 response to the VM endpoint is fatal with the
API-error message, while a 200 response is not in the fatal set. -/
theorem c7_query_api_endpoint_fatal_iff_witness :
    503 ∈ fatalStatuses ∧ ¬ 200 ∈ fatalStatuses
    ∧ (query_api_endpoint
        (fun _ => .ok { status_code := 503, text := "busy", json := .raw "" })
        { baseurl := "https://vc", cacert := "ca", timeout := 10,
          debug := false, authtoken := "tok" }
        "GET" "/api/vcenter/vm" none).1
      = .error (3, "Error during API request to /api/vcenter/vm : HTTP status 503 : busy",
                "") := by
  refine ⟨by decide, by decide, ?_⟩
  have h := (c7_query_api_endpoint_fatal_iff
    { baseurl := "https://vc", cacert := "ca", timeout := 10,
      debug := false, authtoken := "tok" }
    { status_code := 503, text := "busy", json := .raw "" }
    "GET" "/api/vcenter/vm").2.1 (by decide)
  rw [h]
  rfl

/-- C8: if the transport raises a connection-level failure on the
authentication request, the whole run issues that single request and no
other — in particular no data fetch (`GET`) and no teardown (`DELETE`) —
and exits with code 3 printing one line `UNKNOWN - Connection error: {err}`
with no perfdata appended. -/
theorem c8_auth_transport_failure_short_circuits (transport : Transport)
    (args : Args) (err : String)
    (h : transport (authRequest args) = .error err) :
    main transport args
      = (.exited 3 ("UNKNOWN - Connection error: " ++ err), [authRequest args])
    ∧ ∀ r ∈ (main transport args).2, ¬ r.method = "GET" ∧ ¬ r.method = "DELETE" := by
  have hm : main transport args
      = (.exited 3 ("UNKNOWN - Connection error: " ++ err), [authRequest args]) := by
    unfold main sessionInit
    rw [h]
    simp [outcomeOfExit, exit_plugin]
    rw [← String.append_assoc]
    rfl
  refine ⟨hm, ?_⟩
  rw [hm]
  intro r hr
  rw [List.mem_singleton] at hr
  subst hr
  exact ⟨by simp [authRequest], by simp [authRequest]⟩

/-- C8 witness: with a transport that refuses every connection, a `vms`-mode
run exits 3 with the UNKNOWN connection-error line after exactly one request,
the authentication POST. -/
theorem c8_auth_transport_failure_witness :
    main (fun _ => .error "Connection refused")
        { mode := "vms", user := "u", pw := "p", baseurl := "https://vc",
          timeout := 10, cacert := "ca", debug := false }
      = (.exited 3 "UNKNOWN - Connection error: Connection refused",
         [authRequest { mode := "vms", user := "u", pw := "p", baseurl := "https://vc",
                        timeout := 10, cacert := "ca", debug := false }]) := by
  exact (c8_auth_transport_failure_short_circuits (fun _ => .error "Connection refused")
    { mode := "vms", user := "u", pw := "p", baseurl := "https://vc",
      timeout := 10, cacert := "ca", debug := false } "Connection refused" rfl).1

/-- C10: whenever a data query draws a response with a status in the fatal
set, the `exit_plugin(3, ...)` message hard-codes the endpoint
`/api/vcenter/vm` — it does not depend on the `endpoint` argument — even
though the issued request (the trace) really targeted
`{baseurl}{endpoint}`. -/
theorem c10_fatal_message_hardcodes_vm_endpoint (sess : VCenterAPISession)
    (resp : HttpResponse) (method endpoint : String)
    (h : resp.status_code ∈ fatalStatuses) :
    query_api_endpoint (fun _ => .ok resp) sess method endpoint none
      = (.error (3, "Error during API request to /api/vcenter/vm : HTTP status "
          ++ toString resp.status_code ++ " : " ++ resp.text, ""),
         [queryRequest sess method endpoint none]) := by
  unfold query_api_endpoint
  simp [h]

/-- C10 witness: a 400 response to a query aimed at `/api/vcenter/host`
still produces the error message naming `/api/vcenter/vm`, while the
request in the trace carries the host URL. -/
theorem c10_fatal_message_hardcodes_vm_endpoint_witness :
    400 ∈ fatalStatuses
    ∧ query_api_endpoint
        (fun _ => .ok { status_code := 400, text := "bad request", json := .raw "" })
        { baseurl := "https://vc", cacert := "ca", timeout := 10,
          debug := false, authtoken := "tok" }
        "GET" "/api/vcenter/host" none
      = (.error (3, "Error during API request to /api/vcenter/vm : HTTP status 400 : bad request",
                 ""),
         [{ method := "GET", url := "https://vc/api/vcenter/host",
            headers := [("Content-Type", "application/x-www-form-urlencoded"),
                        ("vmware-api-session-id", "tok")],
            auth := none }]) := by
  refine ⟨by decide, ?_⟩
  have h := c10_fatal_message_hardcodes_vm_endpoint
    { baseurl := "https://vc", cacert := "ca", timeout := 10,
      debug := false, authtoken := "tok" }
    { status_code := 400, text := "bad request", json := .raw "" }
    "GET" "/api/vcenter/host" (by decide)
  rw [h]
  rfl

end CheckVcenter
